import Mathlib

/-! Verification of the pyinfra SSH connector and fact subsystem against its
specification.

The SSH connector implementation itself is not part of the source tree (only
its test suite, tests/test_connectors/test_ssh.py, is), so the connector's
behaviour is modelled from the specification, with every exact command string
and message pinned by the assertions of that test suite.  The package-list
parser is driven by the regex APK_REGEX from pyinfra/facts/apk.py, which is
part of the source tree and is embedded faithfully below. -/

/-- Modelled from the spec: the command-wrapping convention (spec section 6,
pyinfra.api.connectors.util) — every executed command is wrapped in
`sh -c '<cmd>'`; privileged commands are wrapped in
`sudo -S -H -n -u <user> sh -c '<cmd>'` (the `-u <user>` part only when a
sudo_user is given) or `su <user> -s \`which sh\` -c '<cmd>'`.  The exact
strings are pinned by test_run_shell_command, test_put_file_sudo and
test_put_file_su_user_fail. -/
def make_command (command : String) (use_sudo : Bool)
    (sudo_user su_user : Option String) : String :=
  match su_user with
  | some u => "su " ++ u ++ " -s `which sh` -c '" ++ command ++ "'"
  | none =>
    if use_sudo then
      "sudo -S -H -n" ++
        (match sudo_user with
         | some u => " -u " ++ u
         | none => "") ++
        " sh -c '" ++ command ++ "'"
    else
      "sh -c '" ++ command ++ "'"

/-- Modelled from the spec: a deterministic digest of a string, standing in
for the stable content hash used to derive remote temp paths (spec section 6:
the exact hash algorithm is an implementation choice; determinism for a given
input is the contract). -/
def str_digest (s : String) : Nat :=
  s.data.foldl (fun h c => (h * 31 + c.toNat) % 1099511627776) 7

/-- Modelled from the spec: the remote temp path used to stage privileged
file transfers — a deterministic hash of the concatenation of the two path
strings, placed under /tmp/ (spec sections 3 "RemoteTempPath" and 6). -/
def remote_tmp (first_path second_path : String) : String :=
  "/tmp/" ++ String.mk (Nat.toDigits 16 (str_digest (first_path ++ second_path)))

/-- One observable side effect of a connector file-transfer call: an SFTP
upload (putfo), an SFTP download (getfo), or a shell command issued over the
transport together with its pty flag. -/
inductive Event
  | upload (local_path remote_path : String)
  | download (remote_path local_path : String)
  | exec (command : String) (get_pty : Bool)
  deriving DecidableEq, Repr

/-- The observable outcome of a put_file / get_file call: the ordered trace
of side effects it performed, and its boolean result. -/
structure TransferEffects where
  events : List Event
  result : Bool
  deriving DecidableEq, Repr

/-- The commands a trace of events issued over the transport, in order. -/
def execCommands (events : List Event) : List String :=
  events.foldr
    (fun e acc =>
      match e with
      | Event.exec c _ => c :: acc
      | _ => acc)
    []

/-- Modelled from the spec (section 4.3, put): an unprivileged put streams
straight to the destination over SFTP; a privileged put (sudo or su) uploads
to the deterministic temp path and then issues a single wrapped
`mv <temp> <dest> && chown <user> <dest>` command, the chown target being the
sudo_user or su_user (command pinned by test_put_file_sudo and
test_put_file_su_user_fail).  `exit_status` is the exit status the remote
shell reports for the privileged command; the call returns false exactly when
it is non-zero, and never raises. -/
def put_file (local_path remote_path : String) (use_sudo : Bool)
    (sudo_user su_user : Option String) (exit_status : Nat) : TransferEffects :=
  if use_sudo || su_user.isSome then
    let temp := remote_tmp local_path remote_path
    let chown_target :=
      match sudo_user with
      | some u => some u
      | none => su_user
    let move_command :=
      "mv " ++ temp ++ " " ++ remote_path ++
        (match chown_target with
         | some u => " && chown " ++ u ++ " " ++ remote_path
         | none => "")
    { events := [Event.upload local_path temp,
                 Event.exec (make_command move_command use_sudo sudo_user su_user) false],
      result := exit_status == 0 }
  else
    { events := [Event.upload local_path remote_path], result := true }

/-- Modelled from the spec (section 4.3, get): an unprivileged get streams
straight from the source over SFTP; a privileged get issues a wrapped
`cp <src> <temp> && chmod +r <src>` command, returning false immediately
(no download, no cleanup) if its exit status is non-zero, otherwise downloads
the temp path and issues a wrapped `rm -f <temp>` cleanup command, returning
false if the cleanup's exit status is non-zero (commands pinned by
test_get_file_sudo, test_get_file_sudo_copy_fail, test_get_file_sudo_remove_fail
and test_get_file_su_user). -/
def get_file (remote_path local_path : String) (use_sudo : Bool)
    (sudo_user su_user : Option String) (copy_status remove_status : Nat) :
    TransferEffects :=
  if use_sudo || su_user.isSome then
    let temp := remote_tmp remote_path local_path
    let copy_command :=
      make_command ("cp " ++ remote_path ++ " " ++ temp ++ " && chmod +r " ++ remote_path)
        use_sudo sudo_user su_user
    if copy_status = 0 then
      let remove_command := make_command ("rm -f " ++ temp) use_sudo sudo_user su_user
      { events := [Event.exec copy_command false,
                   Event.download temp local_path,
                   Event.exec remove_command false],
        result := remove_status == 0 }
    else
      { events := [Event.exec copy_command false], result := false }
  else
    { events := [Event.download remote_path local_path], result := true }

/-- C3: for every put_file with sudo and sudo_user ubuntu, the file is first
SFTP-uploaded to the deterministic temp path derived from
(local_path, remote_path), then exactly the command
`sudo -S -H -n -u ubuntu sh -c 'mv <temp> <dest> && chown ubuntu <dest>'`
is issued with no pty, and when the command's exit status is non-zero the
result is false (and the call, being a total function, raises nothing). -/
theorem put_file_sudo_ubuntu (local_path remote_path : String) (exit_status : Nat) :
    put_file local_path remote_path true (some "ubuntu") none exit_status =
      { events := [Event.upload local_path (remote_tmp local_path remote_path),
                   Event.exec
                     ("sudo -S -H -n -u ubuntu sh -c 'mv " ++
                       remote_tmp local_path remote_path ++ " " ++ remote_path ++
                       " && chown ubuntu " ++ remote_path ++ "'")
                     false],
        result := exit_status == 0 } ∧
      (exit_status ≠ 0 →
        (put_file local_path remote_path true (some "ubuntu") none exit_status).result
          = false) := by
  constructor
  · simp only [put_file, make_command, TransferEffects.mk.injEq, List.cons.injEq,
      Event.exec.injEq, Event.upload.injEq]
    simp [String.append_assoc]
    rfl
  · intro h
    simp [put_file, h]

/-- Witness for put_file_sudo_ubuntu at the concrete input of
test_put_file_sudo (exit status 1). -/
theorem put_file_sudo_ubuntu_holds :
    (1 : Nat) ≠ 0 ∧
      (put_file "not-a-file" "not-another-file" true (some "ubuntu") none 1).result
        = false :=
  ⟨by decide, (put_file_sudo_ubuntu "not-a-file" "not-another-file" 1).2 (by decide)⟩

/-- The exec call a run_shell_command issues: the wrapped command string and
the pty flag handed to the transport. -/
structure ExecCall where
  command : String
  get_pty : Bool
  deriving DecidableEq, Repr

/-- Modelled from the spec (section 4.2): run_shell_command never executes
the caller's command verbatim — it wraps it via the command-wrapping
convention and passes the caller's pty request through unchanged (pinned by
test_run_shell_command). -/
def run_shell_command (command : String) (use_sudo : Bool)
    (sudo_user su_user : Option String) (get_pty : Bool) : ExecCall :=
  { command := make_command command use_sudo sudo_user su_user, get_pty := get_pty }

/-- C4: run_shell_command on "echo hi" without privilege escalation passes
exactly the string `sh -c 'echo hi'` to the transport's exec call, and the
pty flag is exactly what the caller asked for — in particular no pty when
none was requested. -/
theorem run_shell_command_echo_hi (pty : Bool) :
    run_shell_command "echo hi" false none none pty =
      { command := "sh -c 'echo hi'", get_pty := pty } ∧
    run_shell_command "echo hi" false none none false =
      { command := "sh -c 'echo hi'", get_pty := false } :=
  ⟨rfl, rfl⟩

/-- C1 counterexample: at the input of test_put_file_su_user_fail, the single
privileged command put_file issues for su_user centos is not the move without
the chown — the issued command keeps the `&& chown centos <dest>` suffix. -/
theorem put_file_su_without_chown_refuted :
    execCommands
        (put_file "not-a-file" "not-another-file" false none (some "centos") 1).events
      ≠ ["su centos -s `which sh` -c 'mv " ++
          remote_tmp "not-a-file" "not-another-file" ++ " not-another-file'"] := by
  decide

/-- C1 amended: for every put_file invoked with su_user (and no sudo), after
staging to the deterministic temp path the single privileged command issued
is the same move-and-chown as in the sudo case — `mv <temp> <dest> &&
chown <user> <dest>` with the chown target being the su_user — wrapped as
`su <user> -s \`which sh\` -c '...'`, and the result is false exactly when
that command's exit status is non-zero. -/
theorem put_file_su_user (local_path remote_path u : String) (exit_status : Nat) :
    put_file local_path remote_path false none (some u) exit_status =
      { events := [Event.upload local_path (remote_tmp local_path remote_path),
                   Event.exec
                     ("su " ++ u ++ " -s `which sh` -c 'mv " ++
                       remote_tmp local_path remote_path ++ " " ++ remote_path ++
                       " && chown " ++ u ++ " " ++ remote_path ++ "'")
                     false],
        result := exit_status == 0 } := by
  simp only [put_file, make_command, TransferEffects.mk.injEq, List.cons.injEq,
    Event.exec.injEq, Event.upload.injEq]
  simp [String.append_assoc]
  rfl

/-- C2: for every privileged get_file, if the initial copy-and-chmod command
exits non-zero then no SFTP download and no cleanup command is attempted and
the result is false; and if the copy succeeds but the final cleanup command
exits non-zero, the result is still false even though the download happened. -/
theorem get_file_privileged_failures (remote_path local_path : String)
    (use_sudo : Bool) (sudo_user su_user : Option String)
    (copy_status remove_status : Nat)
    (hpriv : (use_sudo || su_user.isSome) = true) :
    (copy_status ≠ 0 →
      get_file remote_path local_path use_sudo sudo_user su_user copy_status remove_status =
        { events := [Event.exec
            (make_command
              ("cp " ++ remote_path ++ " " ++ remote_tmp remote_path local_path ++
                " && chmod +r " ++ remote_path)
              use_sudo sudo_user su_user) false],
          result := false }) ∧
    (copy_status = 0 → remove_status ≠ 0 →
      (get_file remote_path local_path use_sudo sudo_user su_user
          copy_status remove_status).result = false) := by
  constructor
  · intro h
    simp [get_file, hpriv, h]
  · intro h0 h1
    simp [get_file, hpriv, h0, h1]

/-- Witness for get_file_privileged_failures at the inputs of
test_get_file_sudo_copy_fail (copy exits 1) and
test_get_file_sudo_remove_fail (copy exits 0, cleanup exits 1). -/
theorem get_file_privileged_failures_holds :
    get_file "not-a-file" "not-another-file" true (some "ubuntu") none 1 0 =
      { events := [Event.exec
          (make_command
            ("cp " ++ "not-a-file" ++ " " ++ remote_tmp "not-a-file" "not-another-file" ++
              " && chmod +r " ++ "not-a-file")
            true (some "ubuntu") none) false],
        result := false } ∧
    (get_file "not-a-file" "not-another-file" true (some "ubuntu") none 0 1).result
      = false :=
  ⟨(get_file_privileged_failures "not-a-file" "not-another-file" true (some "ubuntu")
      none 1 0 (by decide)).1 (by decide),
   (get_file_privileged_failures "not-a-file" "not-another-file" true (some "ubuntu")
      none 0 1 (by decide)).2 rfl (by decide)⟩

/-- Modelled from the spec (section 4.1): the per-host authentication inputs
consumed from host configuration. -/
structure HostConfig where
  name : String
  username : String
  ssh_password : Option String
  ssh_key : Option String
  ssh_key_password : Option String
  timeout : Nat
  deriving DecidableEq, Repr

/-- Modelled from the spec (section 7): the error taxonomy of connect — the
uniform connection failure plus the user-actionable key-configuration
failures, all raised as the one pyinfra error kind (every constructor is a
PyinfraError, as the tests assert with assertRaises(PyinfraError)). -/
inductive PyinfraError
  | connectionError (msg : String)
  | missingKeyError (msg : String)
  | encryptedKeyError (msg : String)
  | invalidKeyPasswordError (msg : String)
  deriving DecidableEq, Repr

/-- Outcome of one attempt of the transport library to load a private key
file: the decrypted key material, a password-required failure, or any other
load failure (wrong password included). -/
inductive KeyLoad
  | ok (key : String)
  | passwordRequired
  | failed
  deriving DecidableEq, Repr

/-- The transport library's key loader as the connect routine sees it:
loading the key file without a password, and loading it with a given
password. -/
structure KeyOracle where
  plain : KeyLoad
  withPassword : String → KeyLoad

/-- The arguments the connector hands to the transport-level connect call
(paramiko SSHClient.connect), pinned by test_connect_with_ssh_key. -/
structure ConnectArgs where
  hostname : String
  username : String
  allow_agent : Bool
  look_for_keys : Bool
  pkey : Option String
  password : Option String
  timeout : Nat
  deriving DecidableEq, Repr

/-- Modelled from the spec (section 4.1): resolve the authentication inputs
of a host into transport connect arguments, first success wins: an explicit
password; else an explicit key file — missing file fails, a password-required
load with no configured key password fails with the encrypted-key error
naming the file, a failed retry with the configured password fails with the
invalid-key-password error naming the file, and a loaded key disables agent
and default-key lookup; else agent/default discovery with the transport
defaults. -/
def make_paramiko_kwargs (cfg : HostConfig) (key_file_exists : Bool)
    (oracle : KeyOracle) : Except PyinfraError ConnectArgs :=
  let base : ConnectArgs :=
    { hostname := cfg.name, username := cfg.username,
      allow_agent := true, look_for_keys := true,
      pkey := none, password := none, timeout := cfg.timeout }
  match cfg.ssh_password with
  | some pw => Except.ok { base with password := some pw }
  | none =>
    match cfg.ssh_key with
    | none => Except.ok base
    | some path =>
      if key_file_exists then
        match oracle.plain with
        | KeyLoad.ok k =>
          Except.ok { base with pkey := some k, allow_agent := false, look_for_keys := false }
        | KeyLoad.passwordRequired =>
          match cfg.ssh_key_password with
          | none =>
            Except.error (PyinfraError.encryptedKeyError
              ("Private key file (" ++ path ++
                ") is encrypted, set ssh_key_password to use this key"))
          | some pw =>
            match oracle.withPassword pw with
            | KeyLoad.ok k =>
              Except.ok
                { base with pkey := some k, allow_agent := false, look_for_keys := false }
            | _ =>
              Except.error (PyinfraError.invalidKeyPasswordError
                ("Incorrect password for private key: " ++ path))
        | KeyLoad.failed =>
          Except.error (PyinfraError.connectionError ("Unable to load key: " ++ path))
      else
        Except.error (PyinfraError.missingKeyError ("No such private key file: " ++ path))

/-- Outcome of the transport-level connect call: success or one of the five
exception kinds of test_connect_exceptions (AuthenticationException,
SSHException, gaierror, socket error, EOFError). -/
inductive TransportOutcome
  | ok
  | authFailed
  | sshError
  | dnsError
  | socketError
  | eofError
  deriving DecidableEq, Repr

/-- The message attached to the uniform connection error for each transport
failure kind. -/
def transport_error_message (o : TransportOutcome) : String :=
  match o with
  | TransportOutcome.ok => ""
  | TransportOutcome.authFailed => "Authentication error"
  | TransportOutcome.sshError => "SSH error"
  | TransportOutcome.dnsError => "Could not resolve hostname"
  | TransportOutcome.socketError => "Could not connect"
  | TransportOutcome.eofError => "EOF error"

/-- Orchestration state a connect call can touch: the set of hosts recorded
active. -/
structure SSHState where
  active_hosts : List String
  deriving DecidableEq, Repr

/-- The observable outcome of one host connect attempt: the error or success
it reports, the orchestration state afterwards, and the transport connect
calls it made with their arguments. -/
structure ConnectOutcome where
  outcome : Except PyinfraError Unit
  state : SSHState
  transport_calls : List ConnectArgs

/-- Modelled from the spec (section 4.1): a single host connect — resolve
the authentication arguments, invoke the transport connect once with them,
translate every transport failure into the uniform connection error, and on
success mark the host active unless the connection is for a fact gather
(for_fact behaviour pinned by test_connect_host). -/
def connect (cfg : HostConfig) (key_file_exists : Bool) (oracle : KeyOracle)
    (transport : ConnectArgs → TransportOutcome) (for_fact : Bool)
    (st : SSHState) : ConnectOutcome :=
  match make_paramiko_kwargs cfg key_file_exists oracle with
  | Except.error e => { outcome := Except.error e, state := st, transport_calls := [] }
  | Except.ok args =>
    match transport args with
    | TransportOutcome.ok =>
      { outcome := Except.ok (),
        state :=
          if for_fact then st
          else { st with active_hosts := st.active_hosts ++ [cfg.name] },
        transport_calls := [args] }
    | o =>
      { outcome := Except.error (PyinfraError.connectionError (transport_error_message o)),
        state := st, transport_calls := [args] }

/-- When authentication resolution succeeds, connect invokes the transport
exactly once, with the resolved arguments, whatever the transport then
does. -/
theorem connect_calls_transport_once (cfg : HostConfig) (kfe : Bool)
    (oracle : KeyOracle) (transport : ConnectArgs → TransportOutcome)
    (for_fact : Bool) (st : SSHState) (args : ConnectArgs)
    (h : make_paramiko_kwargs cfg kfe oracle = Except.ok args) :
    (connect cfg kfe oracle transport for_fact st).transport_calls = [args] := by
  simp only [connect, h]
  split <;> rfl

/-- C5: every transport-level connect failure — authentication failure,
protocol error, DNS failure, socket error or end-of-stream — is caught and
re-raised as the one uniform connection-failure kind of PyinfraError, and
the host is never added to the active set. -/
theorem connect_transport_failure_uniform (cfg : HostConfig) (kfe : Bool)
    (oracle : KeyOracle) (args : ConnectArgs) (st : SSHState)
    (o : TransportOutcome)
    (hargs : make_paramiko_kwargs cfg kfe oracle = Except.ok args)
    (ho : o ≠ TransportOutcome.ok) :
    (connect cfg kfe oracle (fun _ => o) false st).outcome =
        Except.error (PyinfraError.connectionError (transport_error_message o)) ∧
      (connect cfg kfe oracle (fun _ => o) false st).state = st := by
  unfold connect
  rw [hargs]
  cases o with
  | ok => exact absurd rfl ho
  | authFailed => exact ⟨rfl, rfl⟩
  | sshError => exact ⟨rfl, rfl⟩
  | dnsError => exact ⟨rfl, rfl⟩
  | socketError => exact ⟨rfl, rfl⟩
  | eofError => exact ⟨rfl, rfl⟩

/-- Witness for connect_transport_failure_uniform: a password-authenticated
host whose transport connect fails with an authentication error is left out
of the active set and the error surfaces as the uniform connection error. -/
theorem connect_transport_failure_uniform_holds :
    (connect ⟨"somehost", "vagrant", some "test", none, none, 10⟩ true
        ⟨KeyLoad.failed, fun _ => KeyLoad.failed⟩
        (fun _ => TransportOutcome.authFailed) false ⟨[]⟩).outcome =
        Except.error (PyinfraError.connectionError
          (transport_error_message TransportOutcome.authFailed)) ∧
      (connect ⟨"somehost", "vagrant", some "test", none, none, 10⟩ true
        ⟨KeyLoad.failed, fun _ => KeyLoad.failed⟩
        (fun _ => TransportOutcome.authFailed) false ⟨[]⟩).state = ⟨[]⟩ :=
  connect_transport_failure_uniform _ true _
    ⟨"somehost", "vagrant", true, true, none, some "test", 10⟩ ⟨[]⟩
    TransportOutcome.authFailed rfl (by decide)

/-- C6: a host configured with a key file whose load demands a password,
when no key password is configured, fails connect with the encrypted-key
error; the message contains the key file's path and instructs the caller to
set a key password. -/
theorem connect_encrypted_key_no_password (cfg : HostConfig) (path : String)
    (oracle : KeyOracle) (transport : ConnectArgs → TransportOutcome)
    (st : SSHState)
    (hpw : cfg.ssh_password = none) (hkey : cfg.ssh_key = some path)
    (hkpw : cfg.ssh_key_password = none)
    (hplain : oracle.plain = KeyLoad.passwordRequired) :
    (connect cfg true oracle transport false st).outcome =
        Except.error (PyinfraError.encryptedKeyError
          ("Private key file (" ++ path ++
            ") is encrypted, set ssh_key_password to use this key")) ∧
      (∃ before after : String,
        "Private key file (" ++ path ++
            ") is encrypted, set ssh_key_password to use this key" =
          before ++ path ++ after) ∧
      (∃ before after : String,
        "Private key file (" ++ path ++
            ") is encrypted, set ssh_key_password to use this key" =
          before ++ "set ssh_key_password" ++ after) := by
  refine ⟨?_, ?_, ?_⟩
  · simp [connect, make_paramiko_kwargs, hpw, hkey, hkpw, hplain]
  · exact ⟨"Private key file (",
      ") is encrypted, set ssh_key_password to use this key", rfl⟩
  · refine ⟨"Private key file (" ++ path ++ ") is encrypted, ",
      " to use this key", ?_⟩
    simp [String.append_assoc]

/-- Witness for connect_encrypted_key_no_password at the input of
test_connect_with_ssh_key_missing_password: key file testkey, no key
password configured, load raises password-required. -/
theorem connect_encrypted_key_no_password_holds :
    (connect ⟨"somehost", "vagrant", none, some "testkey", none, 10⟩ true
        ⟨KeyLoad.passwordRequired, fun _ => KeyLoad.failed⟩
        (fun _ => TransportOutcome.ok) false ⟨[]⟩).outcome =
        Except.error (PyinfraError.encryptedKeyError
          ("Private key file (" ++ "testkey" ++
            ") is encrypted, set ssh_key_password to use this key")) ∧
      (∃ before after : String,
        "Private key file (" ++ "testkey" ++
            ") is encrypted, set ssh_key_password to use this key" =
          before ++ "testkey" ++ after) ∧
      (∃ before after : String,
        "Private key file (" ++ "testkey" ++
            ") is encrypted, set ssh_key_password to use this key" =
          before ++ "set ssh_key_password" ++ after) :=
  connect_encrypted_key_no_password
    ⟨"somehost", "vagrant", none, some "testkey", none, 10⟩ "testkey"
    ⟨KeyLoad.passwordRequired, fun _ => KeyLoad.failed⟩
    (fun _ => TransportOutcome.ok) ⟨[]⟩ rfl rfl rfl rfl

/-- C7: a host configured with an encrypted key file and a key password that
does not decrypt it fails connect with the invalid-key-password error, whose
message names the key file. -/
theorem connect_wrong_key_password (cfg : HostConfig) (path pw : String)
    (oracle : KeyOracle) (transport : ConnectArgs → TransportOutcome)
    (st : SSHState)
    (hpw : cfg.ssh_password = none) (hkey : cfg.ssh_key = some path)
    (hkpw : cfg.ssh_key_password = some pw)
    (hplain : oracle.plain = KeyLoad.passwordRequired)
    (hretry : oracle.withPassword pw = KeyLoad.failed) :
    (connect cfg true oracle transport false st).outcome =
        Except.error (PyinfraError.invalidKeyPasswordError
          ("Incorrect password for private key: " ++ path)) ∧
      (∃ before after : String,
        "Incorrect password for private key: " ++ path =
          before ++ path ++ after) := by
  constructor
  · simp [connect, make_paramiko_kwargs, hpw, hkey, hkpw, hplain, hretry]
  · exact ⟨"Incorrect password for private key: ", "", by simp⟩

/-- Witness for connect_wrong_key_password at the input of
test_connect_with_ssh_key_wrong_password: key file testkey, key password
testpass, retry with the password fails. -/
theorem connect_wrong_key_password_holds :
    (connect ⟨"somehost", "vagrant", none, some "testkey", some "testpass", 10⟩ true
        ⟨KeyLoad.passwordRequired, fun _ => KeyLoad.failed⟩
        (fun _ => TransportOutcome.ok) false ⟨[]⟩).outcome =
        Except.error (PyinfraError.invalidKeyPasswordError
          ("Incorrect password for private key: " ++ "testkey")) ∧
      (∃ before after : String,
        "Incorrect password for private key: " ++ "testkey" =
          before ++ "testkey" ++ after) :=
  connect_wrong_key_password
    ⟨"somehost", "vagrant", none, some "testkey", some "testpass", 10⟩
    "testkey" "testpass"
    ⟨KeyLoad.passwordRequired, fun _ => KeyLoad.failed⟩
    (fun _ => TransportOutcome.ok) ⟨[]⟩ rfl rfl rfl rfl rfl

/-- C9: with an explicit key file (and no password) the transport connect is
invoked with agent use and default key lookup disabled and the loaded key
passed explicitly; with no explicit key the transport is invoked with agent
and default-key discovery left enabled and no explicit key. -/
theorem connect_key_lookup_args :
    (∀ (cfg : HostConfig) (path k : String) (oracle : KeyOracle)
        (transport : ConnectArgs → TransportOutcome) (st : SSHState),
      cfg.ssh_password = none → cfg.ssh_key = some path →
      oracle.plain = KeyLoad.ok k →
      (connect cfg true oracle transport false st).transport_calls =
        [{ hostname := cfg.name, username := cfg.username,
           allow_agent := false, look_for_keys := false,
           pkey := some k, password := none, timeout := cfg.timeout }]) ∧
    (∀ (cfg : HostConfig) (oracle : KeyOracle)
        (transport : ConnectArgs → TransportOutcome) (st : SSHState),
      cfg.ssh_key = none →
      (connect cfg true oracle transport false st).transport_calls =
        [{ hostname := cfg.name, username := cfg.username,
           allow_agent := true, look_for_keys := true,
           pkey := none, password := cfg.ssh_password, timeout := cfg.timeout }]) := by
  constructor
  · intro cfg path k oracle transport st hpw hkey hplain
    exact connect_calls_transport_once cfg true oracle transport false st _
      (by simp [make_paramiko_kwargs, hpw, hkey, hplain])
  · intro cfg oracle transport st hkey
    cases hp : cfg.ssh_password with
    | none =>
      exact connect_calls_transport_once cfg true oracle transport false st _
        (by simp [make_paramiko_kwargs, hp, hkey])
    | some pw =>
      exact connect_calls_transport_once cfg true oracle transport false st _
        (by simp [make_paramiko_kwargs, hp, hkey])

/-- Witness for connect_key_lookup_args at the inputs of
test_connect_with_ssh_key (key testkey loads as fake_key) and of a
key-less password host. -/
theorem connect_key_lookup_args_holds :
    (connect ⟨"somehost", "vagrant", none, some "testkey", none, 10⟩ true
        ⟨KeyLoad.ok "fake_key", fun _ => KeyLoad.failed⟩
        (fun _ => TransportOutcome.ok) false ⟨[]⟩).transport_calls =
      [{ hostname := "somehost", username := "vagrant",
         allow_agent := false, look_for_keys := false,
         pkey := some "fake_key", password := none, timeout := 10 }] ∧
    (connect ⟨"somehost", "vagrant", some "test", none, none, 10⟩ true
        ⟨KeyLoad.failed, fun _ => KeyLoad.failed⟩
        (fun _ => TransportOutcome.ok) false ⟨[]⟩).transport_calls =
      [{ hostname := "somehost", username := "vagrant",
         allow_agent := true, look_for_keys := true,
         pkey := none, password := some "test", timeout := 10 }] :=
  ⟨connect_key_lookup_args.1 ⟨"somehost", "vagrant", none, some "testkey", none, 10⟩
      "testkey" "fake_key" ⟨KeyLoad.ok "fake_key", fun _ => KeyLoad.failed⟩
      (fun _ => TransportOutcome.ok) ⟨[]⟩ rfl rfl rfl,
   connect_key_lookup_args.2 ⟨"somehost", "vagrant", some "test", none, none, 10⟩
      ⟨KeyLoad.failed, fun _ => KeyLoad.failed⟩
      (fun _ => TransportOutcome.ok) ⟨[]⟩ rfl⟩

/-- C10: a connect made for a fact gather (for_fact true) never changes the
active-host set, whatever happens; and when authentication resolves and the
transport connect succeeds, the connection is established (the call reports
success). -/
theorem connect_for_fact_frame (cfg : HostConfig) (kfe : Bool)
    (oracle : KeyOracle) (transport : ConnectArgs → TransportOutcome)
    (st : SSHState) :
    (connect cfg kfe oracle transport true st).state = st ∧
    (∀ args, make_paramiko_kwargs cfg kfe oracle = Except.ok args →
      transport args = TransportOutcome.ok →
      (connect cfg kfe oracle transport true st).outcome = Except.ok ()) := by
  constructor
  · unfold connect
    split
    · rfl
    · split
      · rfl
      · rfl
  · intro args h htr
    simp [connect, h, htr]

/-- Witness for connect_for_fact_frame: a password host connected for a fact
with a succeeding transport reports success and leaves the active set as it
was. -/
theorem connect_for_fact_frame_holds :
    (connect ⟨"somehost", "vagrant", some "test", none, none, 10⟩ true
        ⟨KeyLoad.failed, fun _ => KeyLoad.failed⟩
        (fun _ => TransportOutcome.ok) true ⟨["otherhost"]⟩).state =
      ⟨["otherhost"]⟩ ∧
    (connect ⟨"somehost", "vagrant", some "test", none, none, 10⟩ true
        ⟨KeyLoad.failed, fun _ => KeyLoad.failed⟩
        (fun _ => TransportOutcome.ok) true ⟨["otherhost"]⟩).outcome =
      Except.ok () :=
  ⟨(connect_for_fact_frame ⟨"somehost", "vagrant", some "test", none, none, 10⟩ true
      ⟨KeyLoad.failed, fun _ => KeyLoad.failed⟩
      (fun _ => TransportOutcome.ok) ⟨["otherhost"]⟩).1,
   (connect_for_fact_frame ⟨"somehost", "vagrant", some "test", none, none, 10⟩ true
      ⟨KeyLoad.failed, fun _ => KeyLoad.failed⟩
      (fun _ => TransportOutcome.ok) ⟨["otherhost"]⟩).2
     ⟨"somehost", "vagrant", true, true, none, some "test", 10⟩ rfl rfl⟩

/-- A character-class quantifier piece of a line regex: exactly one
character of a class, an optional one (?), one or more (+), or zero or
more (*). -/
inductive Piece
  | one (cls : Char → Bool)
  | opt (cls : Char → Bool)
  | plus (cls : Char → Bool)
  | star (cls : Char → Bool)

/-- Greedy backtracking matcher for a sequence of pieces against the input,
anchored at the start, with re.match semantics: quantifiers consume as much
as possible and give back when the rest of the pattern fails, and input
beyond the match is ignored.  Returns, for the leftmost-greedy successful
assignment, how many characters each piece consumed.  The fuel argument only
drives the structural recursion: every recursive call strictly decreases
|pieces| + |input|, so any fuel above that sum never runs out. -/
def matchPieces (fuel : Nat) (pieces : List Piece) (input : List Char) :
    Option (List Nat) :=
  match fuel with
  | 0 => none
  | fuel + 1 =>
    match pieces, input with
    | [], _ => some []
    | Piece.one cls :: ps, x :: xs =>
      if cls x then (matchPieces fuel ps xs).map (fun ns => 1 :: ns) else none
    | Piece.one _ :: _, [] => none
    | Piece.opt _ :: ps, [] => (matchPieces fuel ps []).map (fun ns => 0 :: ns)
    | Piece.opt cls :: ps, x :: xs =>
      if cls x then
        match matchPieces fuel ps xs with
        | some ns => some (1 :: ns)
        | none => (matchPieces fuel ps (x :: xs)).map (fun ns => 0 :: ns)
      else
        (matchPieces fuel ps (x :: xs)).map (fun ns => 0 :: ns)
    | Piece.star _ :: ps, [] => (matchPieces fuel ps []).map (fun ns => 0 :: ns)
    | Piece.star cls :: ps, x :: xs =>
      if cls x then
        match matchPieces fuel (Piece.star cls :: ps) xs with
        | some (n :: ns) => some ((n + 1) :: ns)
        | some [] => none
        | none => (matchPieces fuel ps (x :: xs)).map (fun ns => 0 :: ns)
      else
        (matchPieces fuel ps (x :: xs)).map (fun ns => 0 :: ns)
    | Piece.plus _ :: _, [] => none
    | Piece.plus cls :: ps, x :: xs =>
      if cls x then
        match matchPieces fuel (Piece.star cls :: ps) xs with
        | some (n :: ns) => some ((n + 1) :: ns)
        | _ => none
      else none

/-- A line regex with two captured groups, in the shape shared by the
package-listing patterns: group one, an uncaptured middle, group two, and an
uncaptured trailing part. -/
structure LineRegex where
  group1 : List Piece
  middle : List Piece
  group2 : List Piece
  trailing : List Piece

/-- Matching one line against a two-group line regex: run the matcher on
the concatenated pieces and cut the captured groups out of the line by the
per-piece consumption counts. -/
def matchLine (r : LineRegex) (line : String) : Option (String × String) :=
  let pieces := r.group1 ++ r.middle ++ r.group2 ++ r.trailing
  match matchPieces (pieces.length + line.data.length + 1) pieces line.data with
  | none => none
  | some ns =>
    let n1 := (ns.take r.group1.length).sum
    let nm := ((ns.drop r.group1.length).take r.middle.length).sum
    let n2 := (((ns.drop r.group1.length).drop r.middle.length).take
      r.group2.length).sum
    some (String.mk (line.data.take n1),
      String.mk (((line.data.drop n1).drop nm).take n2))

/-- The character class [a-zA-Z0-9\-_] of APK_REGEX group one. -/
def isNameChar (c : Char) : Bool :=
  c.isAlpha || c.isDigit || c = '-' || c = '_'

/-- The character class [0-9\.] of APK_REGEX group two. -/
def isVersionChar (c : Char) : Bool :=
  c.isDigit || c = '.'

/-- The character class [a-z0-9] of APK_REGEX group two. -/
def isVersionTailChar (c : Char) : Bool :=
  c.isLower || c.isDigit

/-- The class matched by \s (ASCII whitespace, as in the listings at
hand). -/
def isSpaceChar (c : Char) : Bool :=
  c = ' ' || c = '\t' || c = '\n' || c = '\x0b' || c = '\x0c' || c = '\r'

/-- The regex APK_REGEX of pyinfra/facts/apk.py,
`^([a-zA-Z0-9\-_]+)-([0-9\.]+\-?[a-z0-9]*)\s`, as a LineRegex: group one is
one or more name characters, the middle is a literal dash, group two is one
or more digits and dots then an optional dash then zero or more lowercase
letters and digits, and the trailing part is one whitespace character. -/
def APK_REGEX : LineRegex :=
  { group1 := [Piece.plus isNameChar]
    middle := [Piece.one (fun c => c = '-')]
    group2 := [Piece.plus isVersionChar, Piece.opt (fun c => c = '-'),
               Piece.star isVersionTailChar]
    trailing := [Piece.one isSpaceChar] }

/-- Python str.splitlines over a character list: break at every newline,
with no trailing empty line when the text ends in a newline. -/
def splitLinesAux : List Char → List Char → List (List Char)
  | [], [] => []
  | [], acc => [acc.reverse]
  | '\n' :: rest, acc => acc.reverse :: splitLinesAux rest []
  | c :: rest, acc => splitLinesAux rest (c :: acc)

/-- The lines of a string, Python str.splitlines style. -/
def splitlines (s : String) : List String :=
  (splitLinesAux s.data []).map String.mk

/-- Appending a version under a package name, preserving first-seen key
order and per-key version order, as a Python dict of lists does. -/
def addPackage : List (String × List String) → String → String →
    List (String × List String)
  | [], name, version => [(name, [version])]
  | (n, vs) :: rest, name, version =>
    if n = name then (n, vs ++ [version]) :: rest
    else (n, vs) :: addPackage rest name version

/-- One step of the package-list parse: a line matching the regex
contributes its captured (name, version) pair to the mapping, a line that
does not match contributes nothing. -/
def processLine (r : LineRegex) (pkgs : List (String × List String))
    (line : String) : List (String × List String) :=
  match matchLine r line with
  | some (name, version) => addPackage pkgs name version
  | none => pkgs

/-- Modelled from the spec (section 4.5 PackageListParser,
pyinfra/facts/util/packaging.py parse_packages): match the regex against
each line of the output independently and collect the captured name →
version-list mapping; it is a total function, so no input raises. -/
def parse_packages (r : LineRegex) (output : String) :
    List (String × List String) :=
  (splitlines output).foldl (processLine r) []

/-- C8: parse_packages with APK_REGEX on the two-line listing
"foo-1.2.3 installed\nbar-0.9 installed\n" yields exactly foo mapped to
[1.2.3] and bar mapped to [0.9]; and for every input, a line that does not
match the pattern contributes nothing to the mapping (and the parse, a total
function, raises nothing). -/
theorem parse_packages_apk :
    parse_packages APK_REGEX "foo-1.2.3 installed\nbar-0.9 installed\n" =
      [("foo", ["1.2.3"]), ("bar", ["0.9"])] ∧
    (∀ (pkgs : List (String × List String)) (line : String),
      matchLine APK_REGEX line = none →
      processLine APK_REGEX pkgs line = pkgs) := by
  constructor
  · decide
  · intro pkgs line h
    simp [processLine, h]

/-- Witness for parse_packages_apk: the non-matching line "not a package"
of the listing contributes nothing. -/
theorem parse_packages_apk_holds :
    matchLine APK_REGEX "not a package" = none ∧
      processLine APK_REGEX [("foo", ["1.2.3"])] "not a package" =
        [("foo", ["1.2.3"])] :=
  ⟨by decide, parse_packages_apk.2 [("foo", ["1.2.3"])] "not a package" (by decide)⟩
